import Mathlib

/-!
Shallow embedding of the MLPA device-attestation gateway core:
the App Attest challenge store and verifiers
(`src/mlpa/core/routers/appattest/appattest.py`,
`src/mlpa/core/pg_services/app_attest_pg_service.py`),
the authorization dispatcher (`src/mlpa/core/auth/authorize.py`),
and the completion proxy's error classification
(`src/mlpa/core/completions.py`, `src/mlpa/core/utils.py`).

Database effects are modelled by explicit state passing on `AttestDB`;
each Postgres call takes an extra `exc : Bool` flag meaning "the driver
raised an exception on this call" (the Python service methods catch all
exceptions, log, and return `None`).  External cryptographic primitives
(pyattest chain/signature verification, cbor parsing, base64 decoding,
`os.urandom`) are oracle inputs.  Timestamps are integers (epoch seconds),
counters are naturals (parsed from 4 big-endian bytes).
-/

namespace MLPA

/-- Big-endian interpretation of a byte list, as Python `int.from_bytes(bs, "big")`. -/
def fromBytesBE (bs : List Nat) : Nat :=
  bs.foldl (fun acc b => acc * 256 + b) 0

/-- Counter field of App Attest authenticator data: `auth_data[33:37]`, big-endian,
    exactly as both `verify_attest` and `verify_assert` parse it. -/
def assertionCounter (authData : List Nat) : Nat :=
  fromBytesBE ((authData.drop 33).take 4)

def hexChars : List Char := "0123456789abcdef".toList

def hexDigit (n : Nat) : Char := hexChars.getD n '0'

/-- Lowercase-hex characters, the alphabet of `binascii.hexlify`. -/
def isHexChar (c : Char) : Bool :=
  c.isDigit || ('a' ≤ c && c ≤ 'f')

/-- Character stream of `binascii.hexlify`: two lowercase hex digits per byte. -/
def hexlifyChars : List Nat → List Char
  | [] => []
  | b :: bs => hexDigit (b / 16) :: hexDigit (b % 16) :: hexlifyChars bs

/-- Model of `binascii.hexlify(bs).decode("utf-8")`. -/
def hexlify (bs : List Nat) : String :=
  String.mk (hexlifyChars bs)

/-- A FastAPI `HTTPException`, reduced to status code and detail string. -/
structure HTTPError where
  status : Nat
  detail : String
deriving DecidableEq, Repr

/-- Row of the `challenges` table: `(key_id_b64 PK, challenge, created_at)`. -/
structure ChallengeRow where
  challenge : String
  created_at : Int
deriving DecidableEq, Repr

/-- Row of the `public_keys` table: `(key_id_b64 PK, public_key_pem, counter, updated_at)`. -/
structure KeyRow where
  public_key_pem : String
  counter : Nat
  updated_at : Int
deriving DecidableEq, Repr

/-- The App Attest database: both tables, keyed by `key_id_b64`. -/
structure AttestDB where
  challenges : String → Option ChallengeRow
  public_keys : String → Option KeyRow

/-- Model of `AppAttestPGService.store_challenge`: upsert `(challenge, NOW())`;
    any driver exception is swallowed and leaves the store unchanged. -/
def store_challenge (exc : Bool) (db : AttestDB) (key_id_b64 challenge : String)
    (now : Int) : AttestDB :=
  match exc with
  | true => db
  | false =>
    { db with challenges := fun k =>
        if k = key_id_b64 then some ⟨challenge, now⟩ else db.challenges k }

/-- Model of `AppAttestPGService.get_challenge`: fetch the row; on a driver exception the
    Python method logs and falls through, returning `None`. -/
def get_challenge (exc : Bool) (db : AttestDB) (key_id_b64 : String) :
    Option ChallengeRow :=
  match exc with
  | true => none
  | false => db.challenges key_id_b64

/-- Model of `AppAttestPGService.delete_challenge`: delete the row; exceptions swallowed. -/
def delete_challenge (exc : Bool) (db : AttestDB) (key_id_b64 : String) : AttestDB :=
  match exc with
  | true => db
  | false =>
    { db with challenges := fun k =>
        if k = key_id_b64 then none else db.challenges k }

/-- Model of `AppAttestPGService.store_key`: unconditional upsert of
    `(public_key_pem, counter, NOW())`; exceptions swallowed. -/
def store_key (exc : Bool) (db : AttestDB) (key_id_b64 public_key_pem : String)
    (counter : Nat) (now : Int) : AttestDB :=
  match exc with
  | true => db
  | false =>
    { db with public_keys := fun k =>
        if k = key_id_b64 then some ⟨public_key_pem, counter, now⟩
        else db.public_keys k }

/-- Model of `AppAttestPGService.get_key`: fetch the row, `None` on a driver exception. -/
def get_key (exc : Bool) (db : AttestDB) (key_id_b64 : String) : Option KeyRow :=
  match exc with
  | true => none
  | false => db.public_keys key_id_b64

/-- Model of `AppAttestPGService.update_key_counter`: conditional write
    `UPDATE public_keys SET counter = $2, updated_at = NOW()
     WHERE key_id_b64 = $1 AND counter < $2`; exceptions swallowed. -/
def update_key_counter (exc : Bool) (db : AttestDB) (key_id_b64 : String)
    (counter : Nat) (now : Int) : AttestDB :=
  match exc with
  | true => db
  | false =>
    match db.public_keys key_id_b64 with
    | none => db
    | some r =>
      if r.counter < counter then
        { db with public_keys := fun k =>
            if k = key_id_b64 then some ⟨r.public_key_pem, counter, now⟩
            else db.public_keys k }
      else db

/-- The configuration fields the attestation engine reads
    (`mlpa.core.config.Env`); `CHALLENGE_EXPIRY_SECONDS` defaults to 300. -/
structure Env where
  CHALLENGE_EXPIRY_SECONDS : Int
deriving DecidableEq, Repr

/-- Default configuration: `CHALLENGE_EXPIRY_SECONDS: int = 300  # 5 minutes`. -/
def defaultEnv : Env := { CHALLENGE_EXPIRY_SECONDS := 300 }

/-- Model of `generate_client_challenge`: return the stored challenge when one exists and
    is not expired, otherwise persist and return `hexlify(os.urandom(32))`.
    `freshBytes` is the oracle for `os.urandom(32)`. -/
def generate_client_challenge (env : Env) (getExc storeExc : Bool) (db : AttestDB)
    (key_id_b64 : String) (now : Int) (freshBytes : List Nat) : String × AttestDB :=
  match get_challenge getExc db key_id_b64 with
  | none =>
    (hexlify freshBytes,
      store_challenge storeExc db key_id_b64 (hexlify freshBytes) now)
  | some row =>
    if now - row.created_at > env.CHALLENGE_EXPIRY_SECONDS then
      (hexlify freshBytes,
        store_challenge storeExc db key_id_b64 (hexlify freshBytes) now)
    else
      (row.challenge, db)

/-- Model of `validate_challenge`: read the stored challenge, unconditionally delete it,
    then succeed only if a row existed, its age is within
    `CHALLENGE_EXPIRY_SECONDS`, and the value matches exactly. -/
def validate_challenge (env : Env) (getExc delExc : Bool) (db : AttestDB)
    (challenge key_id_b64 : String) (now : Int) : Bool × AttestDB :=
  match get_challenge getExc db key_id_b64 with
  | none => (false, delete_challenge delExc db key_id_b64)
  | some row =>
    if now - row.created_at > env.CHALLENGE_EXPIRY_SECONDS then
      (false, delete_challenge delExc db key_id_b64)
    else
      (decide (challenge = row.challenge), delete_challenge delExc db key_id_b64)

/-- An exception raised inside the `try` block of `verify_assert`:
    either a `fastapi.HTTPException` or any other Python exception
    (pyattest signature failure, cbor decode error, ...). -/
inductive PyErr
  | httpExc (e : HTTPError)
  | exc (msg : String)
deriving DecidableEq, Repr

/-- Body of the `try` block of `verify_assert` (after the key lookup):
    `Assertion(...).verify()` — oracle `sigOk`; cbor-unpacking of the
    assertion's `authenticatorData` — oracle `authData` (`none` = the inner
    parse raised, which the source converts to an `HTTPException(500)`);
    then the replay check `current_counter <= last_counter`, and on success
    the conditional counter write. -/
def verify_assert_try (db : AttestDB) (key_id_b64 : String) (last_counter : Nat)
    (sigOk : Bool) (authData : Option (List Nat)) (updExc : Bool) (now : Int) :
    Except PyErr Unit × AttestDB :=
  match sigOk, authData with
  | false, _ => (.error (.exc "assertion signature invalid"), db)
  | true, none => (.error (.httpExc ⟨500, "Server error during App Attest auth"⟩), db)
  | true, some ad =>
    if assertionCounter ad ≤ last_counter then
      (.error (.httpExc ⟨403, "Assertion verification failed"⟩), db)
    else
      (.ok (), update_key_counter updExc db key_id_b64 (assertionCounter ad) now)

/-- Model of `verify_assert`: base64-decode the key id (`keyIdOk` oracle, failure is an
    `HTTPException(400)` from `b64decode_safe`); look up the key record, 403 if
    absent or without a stored PEM; then run the `try` block — whose every
    failure, the inner 500 included, is caught by `except Exception` and
    re-raised as `HTTPException(403, "Assertion verification failed")`. -/
def verify_assert (keyIdOk : Bool) (db : AttestDB) (key_id_b64 : String)
    (sigOk : Bool) (authData : Option (List Nat)) (getKeyExc updExc : Bool)
    (now : Int) : Except HTTPError Unit × AttestDB :=
  match keyIdOk with
  | false => (.error ⟨400, "Invalid Base64"⟩, db)
  | true =>
    match get_key getKeyExc db key_id_b64 with
    | none => (.error ⟨403, "Assertion verification failed"⟩, db)
    | some rec =>
      if rec.public_key_pem = "" then
        (.error ⟨403, "Assertion verification failed"⟩, db)
      else
        match verify_assert_try db key_id_b64 rec.counter sigOk authData updExc now with
        | (.ok u, db1) => (.ok u, db1)
        | (.error _, db1) =>
          (.error ⟨403, "Assertion verification failed"⟩, db1)

/-- Model of `verify_attest`, after the external chain verification succeeded
    (`attestOk`), parses the counter from the authenticator data and performs
    the unconditional `store_key` upsert; any verification failure is a 403. -/
def verify_attest (keyIdOk : Bool) (db : AttestDB) (key_id_b64 : String)
    (attestOk : Bool) (authData : List Nat) (public_key_pem : String)
    (storeExc : Bool) (now : Int) : Except HTTPError Unit × AttestDB :=
  match keyIdOk, attestOk with
  | false, _ => (.error ⟨400, "Invalid Base64"⟩, db)
  | true, false => (.error ⟨403, "Attestation verification failed"⟩, db)
  | true, true =>
    (.ok (), store_key storeExc db key_id_b64 public_key_pem
      (assertionCounter authData) now)

/-- Lowercasing as Python `str.lower()` restricted to the ASCII range. -/
def lowerString (s : String) : String :=
  String.mk (s.data.map Char.toLower)

/-- Substring test on character lists (Python `pat in hay`). -/
def containsSub (hay pat : List Char) : Bool :=
  match hay with
  | [] => pat.isEmpty
  | _ :: t => pat.isPrefixOf hay || containsSub t pat

/-- Python `pat in hay` on strings. -/
def strContainsSub (hay pat : String) : Bool :=
  containsSub hay.data pat.data

/-- The `error` object of a parsed upstream error body:
    `error.get("type")` and `error.get("message")`. -/
structure UpstreamErrorBody where
  errType : Option String
  errMessage : Option String
deriving DecidableEq, Repr

/-- Outcome of `json.loads(error_text)` followed by `error_data.get("error", \x7b\x7d)`:
    `invalid` covers both a JSON decode failure and a non-mapping `error`
    field (the `AttributeError` branch). -/
inductive ErrorJson
  | invalid
  | valid (e : UpstreamErrorBody)
deriving DecidableEq, Repr

/-- Model of `utils.is_rate_limit_error`: lowercase `f"\x7btype\x7d \x7bmessage\x7d"` and
    look for one of the keywords. -/
def is_rate_limit_error (e : UpstreamErrorBody) (keywords : List String) : Bool :=
  let error_text := lowerString ((e.errType.getD "") ++ " " ++ (e.errMessage.getD ""))
  keywords.any (fun kw => strContainsSub error_text kw)

def ERROR_CODE_BUDGET_LIMIT_EXCEEDED : Nat := 1

def ERROR_CODE_RATE_LIMIT_EXCEEDED : Nat := 2

/-- Model of `completions._parse_rate_limit_error`: empty body → `None`; unparseable
    body → `None` (the throttled-log branch); otherwise keyword "budget" wins
    over "rate", each mapping to its domain error code. -/
def parse_rate_limit_error (errorTextEmpty : Bool) (body : ErrorJson) : Option Nat :=
  if errorTextEmpty then none
  else
    match body with
    | .invalid => none
    | .valid e =>
      if is_rate_limit_error e ["budget"] then some ERROR_CODE_BUDGET_LIMIT_EXCEEDED
      else if is_rate_limit_error e ["rate"] then some ERROR_CODE_RATE_LIMIT_EXCEEDED
      else none

/-- What the non-streaming proxy hands back to the client. -/
inductive CompletionResponse
  | success
  | rateLimited (code : Nat) (retryAfterSeconds : Nat)
  | upstreamError (status : Nat)
  | proxyFailure
deriving DecidableEq, Repr

/-- Model of `completions._handle_rate_limit_error`: raise the 429 with the matching
    `Retry-After` header when a budget/rate code was parsed, else return. -/
def handle_rate_limit_error (errorTextEmpty : Bool) (body : ErrorJson) :
    Option CompletionResponse :=
  let error_code := parse_rate_limit_error errorTextEmpty body
  if error_code = some ERROR_CODE_BUDGET_LIMIT_EXCEEDED then
    some (.rateLimited ERROR_CODE_BUDGET_LIMIT_EXCEEDED 86400)
  else if error_code = some ERROR_CODE_RATE_LIMIT_EXCEEDED then
    some (.rateLimited ERROR_CODE_RATE_LIMIT_EXCEEDED 60)
  else none

/-- What the completion backend did, as the proxy observes it. -/
inductive BackendResult
  | networkFailure
  | response (status : Nat) (errorTextEmpty : Bool) (body : ErrorJson)
deriving DecidableEq, Repr

/-- Response classification of `completions.get_completion`:
    `raise_for_status` throws for every status ≥ 400; only statuses 400 and
    429 are offered to `_handle_rate_limit_error`; every unclassified error is
    re-raised with the original status and a generic detail; network-level
    failures become a 502. -/
def get_completion (r : BackendResult) : CompletionResponse :=
  match r with
  | .networkFailure => .proxyFailure
  | .response status errorTextEmpty body =>
    if 400 ≤ status then
      if status = 400 ∨ status = 429 then
        match handle_rate_limit_error errorTextEmpty body with
        | some resp => resp
        | none => .upstreamError status
      else .upstreamError status
    else .success

/-- One server-sent event emitted by the streaming proxy. -/
inductive StreamEvent
  | chunk (b : String)
  | errorEvent (code : Option Nat)
deriving DecidableEq, Repr

/-- Whether an event is a relayed upstream chunk. -/
def StreamEvent.isChunk : StreamEvent → Bool
  | .chunk _ => true
  | .errorEvent _ => false

/-- A failure occurring while iterating `response.aiter_bytes()`, after the
    listed chunks were relayed. -/
inductive StreamFailure
  | httpStatusError (status : Nat)
  | otherException
deriving DecidableEq, Repr

/-- The upstream's behaviour on a streaming request: the connection itself
    fails, or a response arrives with a status, an error body (read only when
    the status is an error), the relayed chunks, and an optional failure after
    those chunks. -/
inductive StreamUpstream
  | connectFailure
  | response (status : Nat) (errorTextEmpty : Bool) (body : ErrorJson)
      (chunks : List String) (failure : Option StreamFailure)
deriving DecidableEq, Repr

/-- Event stream of `completions.stream_completion`: an initial error status
    yields exactly one error event — with the parsed budget/rate code when the
    status is 400 or 429 and the body matches, generic otherwise; a healthy
    response relays every chunk; a failure mid-iteration emits an error event
    only when `streaming_started` is still false (no chunk was relayed),
    otherwise the stream just ends. -/
def stream_completion (u : StreamUpstream) : List StreamEvent :=
  match u with
  | .connectFailure => [.errorEvent none]
  | .response status errorTextEmpty body chunks failure =>
    if 400 ≤ status then
      if status = 400 ∨ status = 429 then
        match parse_rate_limit_error errorTextEmpty body with
        | some code => [.errorEvent (some code)]
        | none => [.errorEvent none]
      else [.errorEvent none]
    else
      chunks.map .chunk ++
        match failure with
        | none => []
        | some _ => if chunks.isEmpty then [.errorEvent none] else []

/-- Holds when no error event follows a relayed chunk. -/
def noErrorAfterChunk : List StreamEvent → Bool
  | [] => true
  | .errorEvent _ :: t => noErrorAfterChunk t
  | .chunk _ :: t => t.all StreamEvent.isChunk

/-! Helper lemmas. -/

theorem validate_challenge_snd (env : Env) (gE dE : Bool) (db : AttestDB)
    (challenge key_id_b64 : String) (now : Int) :
    (validate_challenge env gE dE db challenge key_id_b64 now).2 =
      delete_challenge dE db key_id_b64 := by
  unfold validate_challenge
  split <;> first | rfl | (split <;> rfl)

theorem get_challenge_after_delete (db : AttestDB) (key_id_b64 : String) :
    get_challenge false (delete_challenge false db key_id_b64) key_id_b64 = none := by
  simp [get_challenge, delete_challenge]

theorem validate_challenge_fst_of_none (env : Env) (gE dE : Bool) (db : AttestDB)
    (challenge key_id_b64 : String) (now : Int)
    (h : get_challenge gE db key_id_b64 = none) :
    (validate_challenge env gE dE db challenge key_id_b64 now).1 = false := by
  unfold validate_challenge
  simp only [h]

theorem length_hexlifyChars (bs : List Nat) :
    (hexlifyChars bs).length = 2 * bs.length := by
  induction bs with
  | nil => rfl
  | cons b bs ih => simp [hexlifyChars, ih]; omega

theorem isHexChar_hexDigit (n : Nat) (h : n < 16) : isHexChar (hexDigit n) = true := by
  have hall : ∀ m < 16, isHexChar (hexDigit m) = true := by decide
  exact hall n h

theorem mem_hexlifyChars (bs : List Nat) (hb : ∀ b ∈ bs, b < 256) :
    ∀ c ∈ hexlifyChars bs, isHexChar c = true := by
  induction bs with
  | nil => intro c hc; cases hc
  | cons b bs ih =>
    intro c hc
    have hblt : b < 256 := hb b (by simp)
    have hdiv : b / 16 < 16 :=
      Nat.div_lt_of_lt_mul (by omega)
    have hmod : b % 16 < 16 := Nat.mod_lt _ (by norm_num)
    simp only [hexlifyChars, List.mem_cons] at hc
    rcases hc with rfl | rfl | hc
    · exact isHexChar_hexDigit _ hdiv
    · exact isHexChar_hexDigit _ hmod
    · exact ih (fun x hx => hb x (by simp [hx])) c hc

/-! Claim theorems. -/

/-- C3: challenges are single-use — `validate_challenge` deletes the stored
    challenge for `key_id` no matter whether validation succeeds or fails, so
    a second call for the same key (in particular with the same
    previously-valid value) returns `false`. -/
theorem challenge_single_use (env env' : Env) (gE gE' : Bool) (db : AttestDB)
    (challenge key_id_b64 challenge' : String) (now now' : Int) :
    get_challenge false
        (validate_challenge env gE false db challenge key_id_b64 now).2 key_id_b64 = none ∧
    (validate_challenge env' gE' false
        (validate_challenge env gE false db challenge key_id_b64 now).2
        challenge' key_id_b64 now').1 = false := by
  have hsnd := validate_challenge_snd env gE false db challenge key_id_b64 now
  have hnone : get_challenge false
      (validate_challenge env gE false db challenge key_id_b64 now).2 key_id_b64 = none := by
    rw [hsnd]; exact get_challenge_after_delete db key_id_b64
  refine ⟨hnone, ?_⟩
  apply validate_challenge_fst_of_none
  cases gE' with
  | false => exact hnone
  | true => simp [get_challenge]

/-- C4: `validate_challenge` returns `true` iff a stored row existed for the
    key, its age is at most the configured TTL, and its value equals the
    provided one exactly; absence, expiry and mismatch all yield `false` (the
    result is a `Bool`, not an exception), and the TTL defaults to 300 s. -/
theorem validate_challenge_true_iff (env : Env) (gE dE : Bool) (db : AttestDB)
    (challenge key_id_b64 : String) (now : Int) :
    ((validate_challenge env gE dE db challenge key_id_b64 now).1 = true ↔
      ∃ row, get_challenge gE db key_id_b64 = some row ∧
        now - row.created_at ≤ env.CHALLENGE_EXPIRY_SECONDS ∧
        challenge = row.challenge) ∧
    defaultEnv.CHALLENGE_EXPIRY_SECONDS = 300 := by
  refine ⟨?_, rfl⟩
  unfold validate_challenge
  cases hget : get_challenge gE db key_id_b64 with
  | none => simp
  | some row =>
    by_cases hexp : now - row.created_at > env.CHALLENGE_EXPIRY_SECONDS
    · simp only [hexp, if_true]
      constructor
      · intro h; cases h
      · rintro ⟨row', hrow', hage, _⟩
        cases Option.some.inj hrow'
        omega
    · simp only [hexp, if_false]
      constructor
      · intro h
        exact ⟨row, rfl, by omega, of_decide_eq_true h⟩
      · rintro ⟨row', hrow', _, hval⟩
        cases Option.some.inj hrow'
        exact decide_eq_true hval

/-- C9: after the (always-successful or 403-failing) key lookup,
    `verify_assert` either returns the success marker or fails with
    `HTTPException(403, "Assertion verification failed")`; in particular a
    counter-parse failure, which internally raises an `HTTPException(500)`,
    is caught by the surrounding `except Exception` and surfaced as that same
    403. -/
theorem verify_assert_only_403 (db : AttestDB) (key_id_b64 : String)
    (sigOk : Bool) (authData : Option (List Nat)) (gkExc updExc : Bool)
    (now : Int) (last_counter : Nat) :
    ((verify_assert true db key_id_b64 sigOk authData gkExc updExc now).1 = .ok () ∨
     (verify_assert true db key_id_b64 sigOk authData gkExc updExc now).1 =
       .error ⟨403, "Assertion verification failed"⟩) ∧
    (verify_assert_try db key_id_b64 last_counter true none updExc now).1 =
      .error (.httpExc ⟨500, "Server error during App Attest auth"⟩) ∧
    (verify_assert true db key_id_b64 true none gkExc updExc now).1 =
      .error ⟨403, "Assertion verification failed"⟩ := by
  refine ⟨?_, rfl, ?_⟩
  · unfold verify_assert
    dsimp only
    cases hget : get_key gkExc db key_id_b64 with
    | none => right; rfl
    | some rec =>
      dsimp only
      by_cases hpem : rec.public_key_pem = ""
      · rw [if_pos hpem]; right; rfl
      · rw [if_neg hpem]
        rcases htry : verify_assert_try db key_id_b64 rec.counter sigOk authData updExc now with
          ⟨res, db1⟩
        cases res with
        | ok u => left; cases u; rfl
        | error e => right; rfl
  · unfold verify_assert
    dsimp only
    cases hget : get_key gkExc db key_id_b64 with
    | none => rfl
    | some rec =>
      dsimp only
      by_cases hpem : rec.public_key_pem = ""
      · rw [if_pos hpem]
      · rw [if_neg hpem]
        rfl

/-- C10: every write of the attestation Postgres service swallows driver
    exceptions and leaves the store unchanged; `update_key_counter` also
    returns normally when its `WHERE counter < $2` clause matches no row;
    consequently `verify_assert` still returns its success marker when
    persisting the new counter fails, and a challenge read error makes
    `validate_challenge` fail closed (return `false`) instead of raising. -/
theorem pg_errors_swallowed (env : Env) (db : AttestDB)
    (key_id_b64 challenge pem : String) (counter : Nat) (now : Int)
    (dE : Bool) (ad : List Nat) (r : KeyRow) :
    store_challenge true db key_id_b64 challenge now = db ∧
    delete_challenge true db key_id_b64 = db ∧
    store_key true db key_id_b64 pem counter now = db ∧
    update_key_counter true db key_id_b64 counter now = db ∧
    (db.public_keys key_id_b64 = some r → counter ≤ r.counter →
      update_key_counter false db key_id_b64 counter now = db) ∧
    (db.public_keys key_id_b64 = some r → r.public_key_pem ≠ "" →
      r.counter < assertionCounter ad →
      verify_assert true db key_id_b64 true (some ad) false true now = (.ok (), db)) ∧
    (validate_challenge env true dE db challenge key_id_b64 now).1 = false := by
  refine ⟨rfl, rfl, rfl, rfl, ?_, ?_, ?_⟩
  · intro hr hle
    unfold update_key_counter
    have : ¬ r.counter < counter := by omega
    simp [hr, this]
  · intro hr hpem hlt
    unfold verify_assert verify_assert_try
    have hnle : ¬ assertionCounter ad ≤ r.counter := by omega
    simp [get_key, hr, hpem, hnle, update_key_counter]
  · apply validate_challenge_fst_of_none
    simp [get_challenge]

/-- C1: `verify_assert` rejects replay — with a stored counter `n`, an
    assertion whose parsed authenticator-data counter is `≤ n` is rejected
    with a 403 and the store is left unchanged, while a counter `> n` passes
    the replay check and is persisted by the conditional counter update. -/
theorem assert_replay_protection (db : AttestDB) (key_id_b64 pem : String)
    (n : Nat) (t : Int) (ad : List Nat) (sigOk : Bool) (updExc : Bool) (now : Int)
    (hkey : db.public_keys key_id_b64 = some ⟨pem, n, t⟩) (hpem : pem ≠ "") :
    (assertionCounter ad ≤ n →
      verify_assert true db key_id_b64 sigOk (some ad) false updExc now =
        (.error ⟨403, "Assertion verification failed"⟩, db)) ∧
    (n < assertionCounter ad → sigOk = true →
      (verify_assert true db key_id_b64 sigOk (some ad) false false now).1 = .ok () ∧
      (verify_assert true db key_id_b64 sigOk (some ad) false false now).2.public_keys
        key_id_b64 = some ⟨pem, assertionCounter ad, now⟩) := by
  have hget : get_key false db key_id_b64 = some ⟨pem, n, t⟩ := by
    simpa [get_key] using hkey
  constructor
  · intro hle
    cases sigOk with
    | false =>
      unfold verify_assert
      rw [hget]
      dsimp only
      rw [if_neg hpem]
      rfl
    | true =>
      have htry : verify_assert_try db key_id_b64 n true (some ad) updExc now =
          (.error (.httpExc ⟨403, "Assertion verification failed"⟩), db) := by
        unfold verify_assert_try
        try dsimp only
        rw [if_pos hle]
      unfold verify_assert
      rw [hget]
      dsimp only
      rw [if_neg hpem]
      rw [htry]
  · intro hgt hsig
    subst hsig
    have htry : verify_assert_try db key_id_b64 n true (some ad) false now =
        (.ok (), update_key_counter false db key_id_b64 (assertionCounter ad)
          now) := by
      unfold verify_assert_try
      try dsimp only
      rw [if_neg (show ¬ assertionCounter ad ≤ n by omega)]
    have hupd : (update_key_counter false db key_id_b64 (assertionCounter ad)
        now).public_keys key_id_b64 = some ⟨pem, assertionCounter ad, now⟩ := by
      unfold update_key_counter
      try dsimp only
      rw [hkey]
      try dsimp only
      rw [if_pos (show KeyRow.counter ⟨pem, n, t⟩ < assertionCounter ad from hgt)]
      simp
    constructor
    · unfold verify_assert
      rw [hget]
      dsimp only
      rw [if_neg hpem]
      rw [htry]
    · unfold verify_assert
      rw [hget]
      dsimp only
      rw [if_neg hpem]
      rw [htry]
      exact hupd

/-- Witness for C1 at a concrete store: key `"k"` enrolled with counter 5;
    an assertion carrying counter 3 is rejected with the state untouched, one
    carrying counter 7 succeeds and persists 7. -/
theorem assert_replay_protection_witness :
    (verify_assert true
        ⟨fun _ => none, fun k => if k = "k" then some ⟨"pem", 5, 0⟩ else none⟩
        "k" true (some (List.replicate 33 0 ++ [0, 0, 0, 3])) false false 9 =
      (.error ⟨403, "Assertion verification failed"⟩,
        ⟨fun _ => none, fun k => if k = "k" then some ⟨"pem", 5, 0⟩ else none⟩)) ∧
    ((verify_assert true
        ⟨fun _ => none, fun k => if k = "k" then some ⟨"pem", 5, 0⟩ else none⟩
        "k" true (some (List.replicate 33 0 ++ [0, 0, 0, 7])) false false 9).1 =
      .ok ()) := by
  constructor
  · exact (assert_replay_protection _ "k" "pem" 5 0 _ true false 9
      (by decide) (by decide)).1 (by decide)
  · exact ((assert_replay_protection _ "k" "pem" 5 0 _ true false 9
      (by decide) (by decide)).2 (by decide) rfl).1

/-- C2 as stated fails on the code: an attestation-driven `store_key` upsert
    overwrites the counter unconditionally, so re-enrollment can decrease it.
    Concretely, with key `"k1"` stored at counter 5, a successful
    `verify_attest` whose authenticator data carries counter 0 is not
    rejected and leaves the record at counter 0 < 5. -/
theorem store_key_counter_decrease :
    ((verify_attest true
        ⟨fun _ => none, fun k => if k = "k1" then some ⟨"pemA", 5, 0⟩ else none⟩
        "k1" true (List.replicate 37 0) "pemB" false 7).1 = .ok ()) ∧
    ((verify_attest true
        ⟨fun _ => none, fun k => if k = "k1" then some ⟨"pemA", 5, 0⟩ else none⟩
        "k1" true (List.replicate 37 0) "pemB" false 7).2.public_keys "k1" =
      some ⟨"pemB", 0, 7⟩) ∧
    assertionCounter (List.replicate 37 0) = 0 ∧ (0 : Nat) < 5 := by
  refine ⟨rfl, by decide, by decide, by decide⟩

/-- C2 amended: the stored counter is non-decreasing under assertion-driven
    writes — `update_key_counter` only ever replaces the counter by a strictly
    larger one — while the attestation-driven `store_key` upsert overwrites
    the record (counter included) unconditionally. -/
theorem update_key_counter_monotone (db : AttestDB) (key_id_b64 : String)
    (counter : Nat) (now : Int) (exc : Bool) (r : KeyRow)
    (h : db.public_keys key_id_b64 = some r) :
    (∃ r', (update_key_counter exc db key_id_b64 counter now).public_keys
        key_id_b64 = some r' ∧ r.counter ≤ r'.counter) ∧
    (∀ pem' c' t',
      (store_key false db key_id_b64 pem' c' t').public_keys key_id_b64 =
        some ⟨pem', c', t'⟩) := by
  constructor
  · cases exc with
    | true => exact ⟨r, h, le_refl _⟩
    | false =>
      unfold update_key_counter
      try dsimp only
      rw [h]
      try dsimp only
      by_cases hlt : r.counter < counter
      · rw [if_pos hlt]
        exact ⟨⟨r.public_key_pem, counter, now⟩, by simp, le_of_lt hlt⟩
      · rw [if_neg hlt]
        exact ⟨r, h, le_refl _⟩
  · intro pem' c' t'
    unfold store_key
    simp

/-- Witness for the amended C2: updating key `"k2"` (stored counter 3) with
    counter 9 yields a record whose counter is at least 3. -/
theorem update_key_counter_monotone_witness :
    ∃ r', (update_key_counter false
        ⟨fun _ => none, fun k => if k = "k2" then some ⟨"p", 3, 0⟩ else none⟩
        "k2" 9 5).public_keys "k2" = some r' ∧ (3 : Nat) ≤ r'.counter := by
  exact (update_key_counter_monotone _ "k2" 9 5 false ⟨"p", 3, 0⟩ (by decide)).1

/-- C8: challenge issuance is idempotent within the validity window — a
    non-expired stored challenge is returned unchanged with no write;
    otherwise the hex encoding of the 32 fresh random bytes is persisted with
    the current time and returned, and that value is a 64-character
    lowercase-hexadecimal string. -/
theorem challenge_issue_idempotent (env : Env) (db : AttestDB)
    (key_id_b64 : String) (now : Int) (freshBytes : List Nat) (storeExc : Bool) :
    (∀ row, db.challenges key_id_b64 = some row →
      now - row.created_at ≤ env.CHALLENGE_EXPIRY_SECONDS →
      generate_client_challenge env false storeExc db key_id_b64 now freshBytes =
        (row.challenge, db)) ∧
    ((db.challenges key_id_b64 = none ∨
      (∃ row, db.challenges key_id_b64 = some row ∧
        now - row.created_at > env.CHALLENGE_EXPIRY_SECONDS)) →
      (generate_client_challenge env false false db key_id_b64 now freshBytes).1 =
        hexlify freshBytes ∧
      (generate_client_challenge env false false db key_id_b64 now
          freshBytes).2.challenges key_id_b64 = some ⟨hexlify freshBytes, now⟩) ∧
    (freshBytes.length = 32 → (hexlify freshBytes).length = 64) ∧
    ((∀ b ∈ freshBytes, b < 256) →
      ∀ c ∈ (hexlify freshBytes).data, isHexChar c = true) := by
  refine ⟨?_, ?_, ?_, ?_⟩
  · intro row hrow hfresh
    have hget : get_challenge false db key_id_b64 = some row := by
      simpa [get_challenge] using hrow
    unfold generate_client_challenge
    rw [hget]
    dsimp only
    rw [if_neg (by omega)]
  · intro hstale
    rcases hstale with hnone | ⟨row, hrow, hexp⟩
    · have hget : get_challenge false db key_id_b64 = none := by
        simpa [get_challenge] using hnone
      unfold generate_client_challenge
      rw [hget]
      exact ⟨rfl, by unfold store_challenge; simp⟩
    · have hget : get_challenge false db key_id_b64 = some row := by
        simpa [get_challenge] using hrow
      unfold generate_client_challenge
      rw [hget]
      dsimp only
      rw [if_pos hexp]
      exact ⟨rfl, by unfold store_challenge; simp⟩
  · intro hlen
    show (hexlifyChars freshBytes).length = 64
    rw [length_hexlifyChars, hlen]
  · intro hb c hc
    exact mem_hexlifyChars freshBytes hb c hc

/-- Witness for C8: re-issuing within the TTL returns the stored value, and
    issuing against an empty store returns the 64-character hexlification of
    the 32 fresh bytes. -/
theorem challenge_issue_idempotent_witness :
    (generate_client_challenge ⟨300⟩ false false
      ⟨fun k => if k = "abc" then some ⟨"c0ffee", 900⟩ else none, fun _ => none⟩
      "abc" 1000 (List.replicate 32 171) =
      ("c0ffee",
        ⟨fun k => if k = "abc" then some ⟨"c0ffee", 900⟩ else none,
          fun _ => none⟩)) ∧
    (hexlify (List.replicate 32 171)).length = 64 := by
  constructor
  · exact (challenge_issue_idempotent ⟨300⟩ _ "abc" 1000 _ false).1
      ⟨"c0ffee", 900⟩ (by decide) (by decide)
  · exact (challenge_issue_idempotent ⟨300⟩
      ⟨fun _ => none, fun _ => none⟩ "abc" 1000 (List.replicate 32 171)
      false).2.2.1 (by decide)

/-- Witness for C10 at a concrete store: with key `"k"` at counter 0 and the
    counter write raising (and being swallowed), `verify_assert` still
    returns its success marker and the store is unchanged. -/
theorem pg_errors_swallowed_witness :
    verify_assert true
      (⟨fun _ => none, fun k => if k = "k" then some ⟨"p", 0, 0⟩ else none⟩ : AttestDB)
      "k" true (some (List.replicate 33 0 ++ [0, 0, 0, 2])) false true 5 =
      (.ok (),
        ⟨fun _ => none, fun k => if k = "k" then some ⟨"p", 0, 0⟩ else none⟩) := by
  exact (pg_errors_swallowed ⟨300⟩ _ "k" "c" "p" 1 5 false _
    ⟨"p", 0, 0⟩).2.2.2.2.2.1 (by decide) (by decide) (by decide)

/-- C6 fails as stated: the code classifies budget/rate bodies only for
    backend statuses 400 and 429.  A backend 403 — a 4xx — whose error body
    contains "budget" is passed through as a generic 403, not returned as a
    429 budget error. -/
theorem budget_403_not_classified :
    get_completion (.response 403 false
        (.valid ⟨none, some "Budget has been exceeded"⟩)) = .upstreamError 403 ∧
    get_completion (.response 403 false
        (.valid ⟨none, some "Budget has been exceeded"⟩)) ≠ .rateLimited 1 86400 ∧
    is_rate_limit_error ⟨none, some "Budget has been exceeded"⟩ ["budget"] = true := by
  refine ⟨rfl, by decide, by decide⟩

/-- C6 amended: for a non-streaming completion, only backend responses with
    status 400 or 429 are classified — "budget" in the error body yields
    429/code 1/`Retry-After: 86400`, otherwise "rate" yields
    429/code 2/`Retry-After: 60`; every other backend error response,
    other 4xx statuses included, is passed through with its original status
    and a generic message, and no code besides 1 and 2 is ever produced. -/
theorem rate_limit_classification (status : Nat) (errorTextEmpty : Bool)
    (body : ErrorJson) :
    (400 ≤ status → (status = 400 ∨ status = 429) →
      ((parse_rate_limit_error errorTextEmpty body =
          some ERROR_CODE_BUDGET_LIMIT_EXCEEDED →
        get_completion (.response status errorTextEmpty body) =
          .rateLimited ERROR_CODE_BUDGET_LIMIT_EXCEEDED 86400) ∧
       (parse_rate_limit_error errorTextEmpty body =
          some ERROR_CODE_RATE_LIMIT_EXCEEDED →
        get_completion (.response status errorTextEmpty body) =
          .rateLimited ERROR_CODE_RATE_LIMIT_EXCEEDED 60) ∧
       (parse_rate_limit_error errorTextEmpty body = none →
        get_completion (.response status errorTextEmpty body) =
          .upstreamError status))) ∧
    (400 ≤ status → ¬(status = 400 ∨ status = 429) →
      get_completion (.response status errorTextEmpty body) =
        .upstreamError status) ∧
    (∀ e, body = .valid e → errorTextEmpty = false →
      (is_rate_limit_error e ["budget"] = true →
        parse_rate_limit_error errorTextEmpty body =
          some ERROR_CODE_BUDGET_LIMIT_EXCEEDED) ∧
      (is_rate_limit_error e ["budget"] = false →
        is_rate_limit_error e ["rate"] = true →
        parse_rate_limit_error errorTextEmpty body =
          some ERROR_CODE_RATE_LIMIT_EXCEEDED)) ∧
    (∀ c, parse_rate_limit_error errorTextEmpty body = some c →
      c = ERROR_CODE_BUDGET_LIMIT_EXCEEDED ∨ c = ERROR_CODE_RATE_LIMIT_EXCEEDED) := by
  refine ⟨?_, ?_, ?_, ?_⟩
  · intro h4 hs
    refine ⟨?_, ?_, ?_⟩ <;> intro hp <;>
      simp [get_completion, handle_rate_limit_error, hp, h4, hs,
        ERROR_CODE_BUDGET_LIMIT_EXCEEDED, ERROR_CODE_RATE_LIMIT_EXCEEDED]
  · intro h4 hs
    simp [get_completion, h4, hs]
  · rintro e rfl rfl
    constructor
    · intro hbud
      simp [parse_rate_limit_error, hbud]
    · intro hbud hrate
      simp [parse_rate_limit_error, hbud, hrate]
  · intro c hc
    cases errorTextEmpty with
    | true => simp [parse_rate_limit_error] at hc
    | false =>
      cases body with
      | invalid => simp [parse_rate_limit_error] at hc
      | valid e =>
        by_cases h1 : is_rate_limit_error e ["budget"] = true
        · simp [parse_rate_limit_error, h1] at hc
          left; omega
        · by_cases h2 : is_rate_limit_error e ["rate"] = true
          · simp [parse_rate_limit_error, h1, h2] at hc
            right; omega
          · simp [parse_rate_limit_error, h1, h2] at hc

/-- Witness for the amended C6: a backend 400 whose error message contains
    "Budget" is returned as the 429 budget error, and a 429 with a "Rate
    limit" message as the 429 rate error. -/
theorem rate_limit_classification_witness :
    get_completion (.response 400 false
        (.valid ⟨none, some "Budget has been exceeded"⟩)) =
      .rateLimited 1 86400 ∧
    get_completion (.response 429 false
        (.valid ⟨none, some "Rate limit exceeded (TPM)"⟩)) =
      .rateLimited 2 60 := by
  constructor
  · exact ((rate_limit_classification 400 false
      (.valid ⟨none, some "Budget has been exceeded"⟩)).1 (by omega)
      (Or.inl rfl)).1 (by decide)
  · exact ((rate_limit_classification 429 false
      (.valid ⟨none, some "Rate limit exceeded (TPM)"⟩)).1 (by omega)
      (Or.inr rfl)).2.1 (by decide)

theorem all_isChunk_map (l : List String) :
    (l.map StreamEvent.chunk).all StreamEvent.isChunk = true := by
  induction l with
  | nil => rfl
  | cons h t ih => simp [StreamEvent.isChunk, ih]

/-- C7: in the streaming path, no error event ever follows a relayed chunk —
    once at least one chunk was yielded, a later failure just ends the
    stream; and a budget/rate code is emitted only as the sole event of the
    stream, coming from the classification of the initial upstream response
    with status 400 or 429. -/
theorem streaming_error_only_first (u : StreamUpstream) :
    noErrorAfterChunk (stream_completion u) = true ∧
    (∀ status errorTextEmpty body chunks failure,
      u = .response status errorTextEmpty body chunks failure →
      status < 400 → chunks ≠ [] →
      stream_completion u = chunks.map .chunk) ∧
    (∀ c, StreamEvent.errorEvent (some c) ∈ stream_completion u →
      ∃ status errorTextEmpty body chunks failure,
        u = .response status errorTextEmpty body chunks failure ∧
        400 ≤ status ∧ (status = 400 ∨ status = 429) ∧
        parse_rate_limit_error errorTextEmpty body = some c ∧
        stream_completion u = [.errorEvent (some c)]) := by
  refine ⟨?_, ?_, ?_⟩
  · cases u with
    | connectFailure => rfl
    | response status eb body chunks failure =>
      unfold stream_completion
      dsimp only
      by_cases h4 : 400 ≤ status
      · rw [if_pos h4]
        by_cases hs : status = 400 ∨ status = 429
        · rw [if_pos hs]
          cases hp : parse_rate_limit_error eb body with
          | none => rfl
          | some c => rfl
        · rw [if_neg hs]; rfl
      · rw [if_neg h4]
        cases chunks with
        | nil =>
          cases failure with
          | none => rfl
          | some f => rfl
        | cons hd tl =>
          cases failure with
          | none => simp [noErrorAfterChunk, all_isChunk_map]
          | some f => simp [noErrorAfterChunk, all_isChunk_map]
  · rintro status eb body chunks failure rfl hlt hne
    unfold stream_completion
    dsimp only
    rw [if_neg (show ¬ 400 ≤ status by omega)]
    cases failure with
    | none => simp
    | some f =>
      cases chunks with
      | nil => exact absurd rfl hne
      | cons hd tl => simp
  · intro c hc
    cases u with
    | connectFailure =>
      simp [stream_completion] at hc
    | response status eb body chunks failure =>
      unfold stream_completion at hc
      dsimp only at hc
      by_cases h4 : 400 ≤ status
      · rw [if_pos h4] at hc
        by_cases hs : status = 400 ∨ status = 429
        · rw [if_pos hs] at hc
          cases hp : parse_rate_limit_error eb body with
          | none => rw [hp] at hc; simp at hc
          | some c' =>
            rw [hp] at hc
            simp at hc
            subst hc
            refine ⟨status, eb, body, chunks, failure, rfl, h4, hs, hp, ?_⟩
            unfold stream_completion
            dsimp only
            rw [if_pos h4, if_pos hs, hp]
        · rw [if_neg hs] at hc
          simp at hc
      · rw [if_neg h4] at hc
        rw [List.mem_append] at hc
        rcases hc with hc | hc
        · rw [List.mem_map] at hc
          rcases hc with ⟨a, _, hchunk⟩
          cases hchunk
        · cases failure with
          | none => simp at hc
          | some f =>
            by_cases he : chunks.isEmpty
            · rw [if_pos he] at hc
              simp at hc
            · rw [if_neg he] at hc
              simp at hc

/-- Witness for C7: a healthy streaming response relays exactly its chunks
    even when the upstream fails after the second chunk. -/
theorem streaming_error_only_first_witness :
    stream_completion (.response 200 false .invalid ["a", "b"]
        (some .otherException)) = [.chunk "a", .chunk "b"] := by
  exact (streaming_error_only_first
    (.response 200 false .invalid ["a", "b"] (some .otherException))).2.1
    200 false .invalid ["a", "b"] (some .otherException) rfl (by omega) (by simp)

end MLPA
